import Mathlib

/-
Verification development for the camera device-provider core
(src/aperture/src/device_provider.rs).

The provider wraps a GStreamer device-discovery backend, keeps a filtered
list of Camera records, gates a privileged file descriptor, and republishes
backend bus messages as list mutations.  Below, the Rust code is shallowly
embedded: the provider's mutable fields become a `ProviderState` record,
each entry point becomes a pure function returning the new state together
with the notifications it emitted, and the process-wide `STARTED : Once`
latch becomes the `started` field (the provider is a singleton, so the
process-wide latch and a per-instance field coincide).
-/

namespace Aperture

/-- Modelled from the spec: the capability/caps descriptor attached to a
backend device (`gst::Caps`), abstracted to the one bit the provider
inspects — whether the caps are tagged infrared.  The repository's
`utils::caps::is_infrared` is not under `src/`. -/
structure Caps where
  infrared : Bool
deriving DecidableEq

/-- Modelled from the spec: `utils::caps::is_infrared`, the predicate used
by the `DeviceAdded` handler to exclude infrared cameras. -/
def is_infrared (c : Caps) : Bool :=
  c.infrared

/-- A backend device (`gst::Device`).  `id` stands for the object identity
(the heap pointer of the GObject): glib wrapper types compare with `==` by
pointer, and two handles with the same pointer are the same object, so a
`Device` value with a given `id` determines all other fields.  The
`targetObject` field is the opaque "target-object" property used by the
spec as device identity. -/
structure Device where
  id : Nat
  displayName : String
  deviceClass : String
  targetObject : Option Nat
  caps : Option Caps
deriving DecidableEq

/-- Modelled from the spec: the Camera record is an immutable wrapper
around one discovered `gst::Device` (the crate's `Camera` type is not under
`src/`); its accessors delegate to the wrapped device. -/
structure Camera where
  device : Device
deriving DecidableEq

/-- Modelled from the spec: `Camera::new` wraps a backend device. -/
def Camera.new (d : Device) : Camera :=
  ⟨d⟩

/-- Modelled from the spec: `camera.target_object()` — the identity
attribute, read from the wrapped device. -/
def Camera.target_object (c : Camera) : Option Nat :=
  c.device.targetObject

/-- Modelled from the spec: `camera.device_class()`. -/
def Camera.device_class (c : Camera) : String :=
  c.device.deviceClass

/-- Modelled from the spec: `camera.caps()`. -/
def Camera.caps (c : Camera) : Option Caps :=
  c.device.caps

/-- Modelled from the spec: `camera.display_name()`. -/
def Camera.display_name (c : Camera) : String :=
  c.device.displayName

/-- The backend handle (`gst::DeviceProvider`), abstracted to what the
provider code consumes: whether `start()` succeeds (with the opaque error
it would surface), the synchronous snapshot `devices()`, whether the
handle has the descriptor-typed `fd` property, and that property's
value. -/
structure Backend where
  startErr : Option String
  devices : List Device
  hasFdProperty : Bool
  fdProp : Int
deriving DecidableEq

/-- Error type of `start` / `start_with_default`
(`crate::ProviderError`): the required discovery plugin is absent, or the
backend's own start failure is surfaced verbatim. -/
inductive ProviderError where
  | MissingPlugin (plugin : String)
  | GstError (message : String)
deriving DecidableEq

/-- Error type of `set_fd` (`crate::PipewireError`). -/
inductive PipewireError where
  | ProvidedStarted
  | OldVersion
deriving DecidableEq

/-- One observable notification emitted by the provider:
`items_changed (position, removed, added)` on the list model, the
`camera-added` / `camera-removed` signals, and the `notify::started`
property notification. -/
inductive Event where
  | itemsChanged (position removed added : Nat)
  | cameraAdded (camera : Camera)
  | cameraRemoved (camera : Camera)
  | notifyStarted
deriving DecidableEq

/-- The provider's state: the fields of `imp::DeviceProvider` plus the
process-wide `STARTED : Once` latch.  `inner` is the `OnceCell`-held
backend handle (absent when the plugin is missing at construction),
`busWatch` records whether the bus watch has been registered, `fd` is the
stored owned descriptor, `defaultCb` the once-settable default-camera
predicate. -/
structure ProviderState where
  inner : Option Backend
  cameras : List Camera
  busWatch : Bool
  fd : Option Nat
  defaultCb : Option (Camera → Bool)
  started : Bool

/-- State of a freshly constructed provider (`ObjectImpl::constructed`):
all fields default, `inner` holds the backend handle iff
`gst::DeviceProviderFactory::by_name ("pipewiredeviceprovider")` found
one. -/
def initState (inner : Option Backend) : ProviderState :=
  { inner := inner
  , cameras := []
  , busWatch := false
  , fd := none
  , defaultCb := none
  , started := false }

/-- Result of a bus-message handler or internal list mutator: the new
state and the notifications emitted, in emission order. -/
structure MsgOut where
  state : ProviderState
  events : List Event

/-- `imp::DeviceProvider::has_camera`: membership test by `gst::Device`
object equality (`c.device() == camera.device()`, glib pointer
equality). -/
def has_camera (st : ProviderState) (camera : Camera) : Bool :=
  st.cameras.any (fun c => c.device == camera.device)

/-- `imp::DeviceProvider::append`: push the camera at the end, emit
`items_changed (len, 0, 1)` then `camera-added`. -/
def append (st : ProviderState) (camera : Camera) : MsgOut :=
  let pos := st.cameras.length
  { state := { st with cameras := st.cameras ++ [camera] }
  , events := [.itemsChanged pos 0 1, .cameraAdded camera] }

/-- The Rust `iter().enumerate().find(p)` idiom used by `remove`: first
matching element together with its index. -/
def findPos (p : Camera → Bool) : List Camera → Option (Nat × Camera)
  | [] => none
  | c :: cs => if p c then some (0, c) else (findPos p cs).map (fun q => (q.1 + 1, q.2))

/-- `imp::DeviceProvider::remove`: find the first entry whose
`target_object` equals the argument's; when absent, log and return with
no mutation; when found at `pos`, delete index `pos` from the vector and
emit `items_changed (pos, 1, 0)` then `camera-removed` carrying the
argument camera. -/
def remove (st : ProviderState) (device : Camera) : MsgOut :=
  match findPos (fun x => x.target_object == device.target_object) st.cameras with
  | none => { state := st, events := [] }
  | some q =>
      { state := { st with cameras := st.cameras.eraseIdx q.1 }
      , events := [.itemsChanged q.1 1 0, .cameraRemoved device] }

/-- The `for n in 0..n_items` scan of the `DeviceRemoved` handler: the
first stored camera whose wrapped device is `==` (pointer-equal) to the
message's device. -/
def scanDevices (d : Device) : List Camera → Option Camera
  | [] => none
  | c :: cs => if d == c.device then some c else scanDevices d cs

/-- A bus message as consumed by `handle_message` (`gst::Message::view`).
For `DeviceAdded` / `DeviceRemoved` the `Option Device` collapses the two
failure points of the source (`e.structure()` absent, or the
`structure`'s `"device"` field failing to read as a `gst::Device`), both
of which fall through with no action. -/
inductive MessageView where
  | error (source : Option String) (message debugInfo : String)
  | deviceAdded (device : Option Device)
  | deviceRemoved (device : Option Device)
  | other

/-- `DeviceProvider::handle_message`: `Error` messages are logged only;
`DeviceAdded` filters by class `"Video/Source"`, dedupes by `has_camera`
(device-object equality), excludes infrared caps, then appends;
`DeviceRemoved` filters by class, scans for the pointer-equal stored
camera and removes it via `remove`; every other message kind is
ignored. -/
def handle_message (st : ProviderState) (msg : MessageView) : MsgOut :=
  match msg with
  | .error _ _ _ => { state := st, events := [] }
  | .deviceAdded d? =>
      match d? with
      | none => { state := st, events := [] }
      | some device =>
          if device.deviceClass == "Video/Source" then
            let camera := Camera.new device
            if ¬ has_camera st camera then
              if (camera.caps.map is_infrared).getD false then
                { state := st, events := [] }
              else
                append st camera
            else
              { state := st, events := [] }
          else
            { state := st, events := [] }
  | .deviceRemoved d? =>
      match d? with
      | none => { state := st, events := [] }
      | some device =>
          if device.deviceClass == "Video/Source" then
            match scanDevices device st.cameras with
            | some nth => remove st nth
            | none => { state := st, events := [] }
          else
            { state := st, events := [] }
  | .other => { state := st, events := [] }

/-- Result of `start` / `start_with_default`: new state, notifications in
emission order, and the returned `Result`. -/
structure StartOut where
  state : ProviderState
  events : List Event
  result : Except ProviderError Unit

/-- The initial snapshot taken by `start_with_default` (lines 207–212 of
the source): the backend's currently known devices filtered by the camera
device class and wrapped into Camera records.  Note the snapshot path
applies no infrared filtering. -/
def snapshotCameras (b : Backend) : List Camera :=
  (b.devices.filter (fun d => d.deviceClass == "Video/Source")).map Camera.new

/-- `DeviceProvider::start_with_default`.  Faithful to the source order:
the `STARTED` latch is tested and, when clear, set immediately (before
the plugin check and the backend start); a missing backend handle yields
`MissingPlugin`; a backend start failure is propagated verbatim; on
success the snapshot is filtered by device class, wrapped, installed as
the whole list with one `items_changed (0, 0, n)`, the bus watch is
registered, the default-camera callback is stored into its `OnceCell`
(kept only if not already set), and `notify::started` fires. -/
def start_with_default (st : ProviderState) (f : Camera → Bool) : StartOut :=
  if st.started then
    { state := st, events := [], result := .ok () }
  else
    match st.inner with
    | none =>
        { state := { st with started := true }
        , events := []
        , result := .error (.MissingPlugin "pipewiredeviceprovider") }
    | some provider =>
        match provider.startErr with
        | some e =>
            { state := { st with started := true }
            , events := []
            , result := .error (.GstError e) }
        | none =>
            let cameras := snapshotCameras provider
            { state :=
                { st with
                  started := true
                , cameras := cameras
                , busWatch := true
                , defaultCb := if st.defaultCb.isNone then some f else st.defaultCb }
            , events := [.itemsChanged 0 0 cameras.length, .notifyStarted]
            , result := .ok () }

/-- `DeviceProvider::start`: `start_with_default` with the always-false
selector. -/
def start (st : ProviderState) : StartOut :=
  start_with_default st (fun _ => false)

/-- `DeviceProvider::default_camera`: first stored camera accepted by the
stored predicate, if any predicate was stored. -/
def default_camera (st : ProviderState) : Option Camera :=
  st.defaultCb.bind (fun f => st.cameras.find? (fun c => f c))

/-- Fate of the `OwnedFd` moved into `set_fd`: either stored in the
provider's `fd` field, or dropped when the call returns (Rust move
semantics close the descriptor) — the caller never gets it back either
way, since the return type carries no descriptor. -/
inductive FdFate where
  | stored
  | dropped
deriving DecidableEq

/-- Outcome of `set_fd`: `Ok (())`, `Err e`, or a panic — the source
unwraps the `OnceCell` holding the backend handle, which panics when the
handle was never obtained. -/
inductive SetFdResult where
  | ok
  | err (e : PipewireError)
  | panicUnwrap
deriving DecidableEq

/-- Result of `set_fd`: new state, outcome, and what became of the
descriptor argument. -/
structure SetFdOut where
  state : ProviderState
  result : SetFdResult
  fdFate : FdFate

/-- `DeviceProvider::set_fd`.  Source order: the `STARTED` latch first
(`ProvidedStarted`), then `inner.get().unwrap()` (panics when the backend
handle is absent), then the `has_property ("fd")` capability check: when
supported the raw fd is written to the backend property and the owned
descriptor replaces the stored one; otherwise `OldVersion` and the
descriptor is dropped on return. -/
def set_fd (st : ProviderState) (fd : Nat) : SetFdOut :=
  if st.started then
    { state := st, result := .err .ProvidedStarted, fdFate := .dropped }
  else
    match st.inner with
    | none => { state := st, result := .panicUnwrap, fdFate := .dropped }
    | some provider =>
        if provider.hasFdProperty then
          { state :=
              { st with
                inner := some { provider with fdProp := (fd : Int) }
              , fd := some fd }
          , result := .ok
          , fdFate := .stored }
        else
          { state := st, result := .err .OldVersion, fdFate := .dropped }

/-- One externally triggered action on the provider: an entry-point call
or the delivery of a bus message. -/
inductive Cmd where
  | startDefault (f : Camera → Bool)
  | startCmd
  | setFdCmd (fd : Nat)
  | busMsg (m : MessageView)

/-- One action step.  A bus message reaches `handle_message` only through
the watch registered during startup, so before registration it changes
nothing. -/
def step (st : ProviderState) : Cmd → ProviderState × List Event
  | .startDefault f => ((start_with_default st f).state, (start_with_default st f).events)
  | .startCmd => ((start st).state, (start st).events)
  | .setFdCmd fd => ((set_fd st fd).state, [])
  | .busMsg m =>
      if st.busWatch then ((handle_message st m).state, (handle_message st m).events)
      else (st, [])

/-- Run a sequence of actions, concatenating the emitted notifications in
order.  Messages are processed strictly in delivery order on the confined
thread, so a trace is simply a list of steps. -/
def run (st : ProviderState) : List Cmd → ProviderState × List Event
  | [] => (st, [])
  | c :: cs =>
      let p := step st c
      let q := run p.1 cs
      (q.1, p.2 ++ q.2)

/-- Class-filter property of a state: every stored entry passed the
`"Video/Source"` device-class filter. -/
def ClassInv (st : ProviderState) : Prop :=
  ∀ c ∈ st.cameras, c.device.deviceClass = "Video/Source"

/-- Reachability invariant of the provider: before the latch is set the
list is empty and no bus watch exists, and every stored entry satisfies
the class filter. -/
def Inv (st : ProviderState) : Prop :=
  (st.started = false → st.cameras = [] ∧ st.busWatch = false) ∧ ClassInv st

/-- Unfolding lemma: once the latch is set, `start_with_default` returns
success immediately, with no events and no state change (source lines
192–193). -/
theorem start_with_default_of_started (st : ProviderState) (f : Camera → Bool)
    (h : st.started = true) :
    start_with_default st f = { state := st, events := [], result := .ok () } := by
  simp [start_with_default, h]

/-- Unfolding lemma: the `MissingPlugin` branch — latch freshly set, no
events, error returned. -/
theorem start_with_default_missing (st : ProviderState) (f : Camera → Bool)
    (h0 : st.started = false) (h1 : st.inner = none) :
    start_with_default st f =
      { state := { st with started := true }, events := []
      , result := .error (.MissingPlugin "pipewiredeviceprovider") } := by
  simp [start_with_default, h0, h1]

/-- Unfolding lemma: the backend-start-failure branch — latch freshly
set, no events, backend error surfaced verbatim. -/
theorem start_with_default_gstError (st : ProviderState) (f : Camera → Bool)
    (b : Backend) (e : String)
    (h0 : st.started = false) (h1 : st.inner = some b) (h2 : b.startErr = some e) :
    start_with_default st f =
      { state := { st with started := true }, events := []
      , result := .error (.GstError e) } := by
  simp [start_with_default, h0, h1, h2]

/-- Unfolding lemma: the success branch — snapshot installed, watch
registered, callback stored, `items_changed (0, 0, n)` then
`notify::started`. -/
theorem start_with_default_ok (st : ProviderState) (f : Camera → Bool) (b : Backend)
    (h0 : st.started = false) (h1 : st.inner = some b) (h2 : b.startErr = none) :
    start_with_default st f =
      { state :=
          { st with
            started := true
          , cameras := snapshotCameras b
          , busWatch := true
          , defaultCb := if st.defaultCb.isNone then some f else st.defaultCb }
      , events := [.itemsChanged 0 0 (snapshotCameras b).length, .notifyStarted]
      , result := .ok () } := by
  simp [start_with_default, h0, h1, h2]

/-- Whatever branch a non-latched `start_with_default` call takes, the
latch is set in the resulting state. -/
theorem start_with_default_state_started (st : ProviderState) (f : Camera → Bool)
    (h : st.started = false) :
    (start_with_default st f).state.started = true := by
  cases h1 : st.inner with
  | none => rw [start_with_default_missing st f h h1]
  | some b =>
      cases h2 : b.startErr with
      | some e => rw [start_with_default_gstError st f b e h h1 h2]
      | none => rw [start_with_default_ok st f b h h1 h2]

/-- Every camera produced by the snapshot passed the class filter. -/
theorem snapshotCameras_class (b : Backend) :
    ∀ c ∈ snapshotCameras b, c.device.deviceClass = "Video/Source" := by
  intro c hc
  simp only [snapshotCameras, List.mem_map, List.mem_filter] at hc
  obtain ⟨d, ⟨_, hcls⟩, rfl⟩ := hc
  simpa [Camera.new] using hcls

/-- The startup entry point preserves the reachability invariant. -/
theorem start_with_default_inv (st : ProviderState) (f : Camera → Bool)
    (h : Inv st) : Inv (start_with_default st f).state := by
  by_cases hs : st.started = true
  · rw [start_with_default_of_started st f hs]; exact h
  · have hs' : st.started = false := by simpa using hs
    cases h1 : st.inner with
    | none =>
        rw [start_with_default_missing st f hs' h1]
        exact ⟨fun hc => by simp at hc, h.2⟩
    | some b =>
        cases h2 : b.startErr with
        | some e =>
            rw [start_with_default_gstError st f b e hs' h1 h2]
            exact ⟨fun hc => by simp at hc, h.2⟩
        | none =>
            rw [start_with_default_ok st f b hs' h1 h2]
            exact ⟨fun hc => by simp at hc, snapshotCameras_class b⟩

/-- Message handling touches no field of the state except `cameras`. -/
theorem handle_message_state_eq (st : ProviderState) (m : MessageView) :
    (handle_message st m).state = { st with cameras := (handle_message st m).state.cameras } := by
  cases m with
  | error s msg dbg => rfl
  | other => rfl
  | deviceAdded d? =>
      cases d? with
      | none => rfl
      | some device =>
          simp only [handle_message]
          split
          · split
            · split
              · rfl
              · rfl
            · rfl
          · rfl
  | deviceRemoved d? =>
      cases d? with
      | none => rfl
      | some device =>
          simp only [handle_message]
          split
          · split
            · simp only [remove]
              split
              · rfl
              · rfl
            · rfl
          · rfl

/-- Message handling preserves the class filter on stored entries. -/
theorem handle_message_classInv (st : ProviderState) (m : MessageView)
    (h : ClassInv st) : ClassInv (handle_message st m).state := by
  cases m with
  | error s msg dbg => exact h
  | other => exact h
  | deviceAdded d? =>
      cases d? with
      | none => exact h
      | some device =>
          simp only [handle_message]
          split
          · rename_i hcls
            split
            · split
              · exact h
              · intro c hc
                simp only [append, List.mem_append, List.mem_singleton] at hc
                rcases hc with hc | rfl
                · exact h c hc
                · simpa [Camera.new] using hcls
            · exact h
          · exact h
  | deviceRemoved d? =>
      cases d? with
      | none => exact h
      | some device =>
          simp only [handle_message]
          split
          · split
            · simp only [remove]
              split
              · exact h
              · intro c hc
                exact h c (List.mem_of_mem_eraseIdx hc)
            · exact h
          · exact h

/-- Setting the descriptor never touches the camera list, the latch, or
the bus watch. -/
theorem set_fd_state (st : ProviderState) (fd : Nat) :
    (set_fd st fd).state.cameras = st.cameras ∧
    (set_fd st fd).state.started = st.started ∧
    (set_fd st fd).state.busWatch = st.busWatch := by
  simp only [set_fd]
  split
  · exact ⟨rfl, rfl, rfl⟩
  · split
    · exact ⟨rfl, rfl, rfl⟩
    · split
      · exact ⟨rfl, rfl, rfl⟩
      · exact ⟨rfl, rfl, rfl⟩

/-- Every action preserves the reachability invariant. -/
theorem step_inv (st : ProviderState) (c : Cmd) (h : Inv st) : Inv (step st c).1 := by
  cases c with
  | startDefault f => exact start_with_default_inv st f h
  | startCmd => exact start_with_default_inv st _ h
  | setFdCmd fd =>
      simp only [step]
      refine ⟨fun hns => ?_, fun c hc => ?_⟩
      · rw [(set_fd_state st fd).1, (set_fd_state st fd).2.2]
        exact h.1 (by rw [← (set_fd_state st fd).2.1]; exact hns)
      · exact h.2 c (by rwa [(set_fd_state st fd).1] at hc)
  | busMsg m =>
      simp only [step]
      split
      · rename_i hbw
        refine ⟨fun hns => ?_, handle_message_classInv st m h.2⟩
        · have hst : (handle_message st m).state.started = st.started := by
            rw [handle_message_state_eq st m]
          have : st.started = false := by rw [← hst]; exact hns
          exact absurd (h.1 this).2 (by simp [hbw])
      · exact h

/-- Whole traces preserve the reachability invariant. -/
theorem run_inv (st : ProviderState) (cmds : List Cmd) (h : Inv st) :
    Inv (run st cmds).1 := by
  induction cmds generalizing st with
  | nil => exact h
  | cons c cs ih => exact ih (step st c).1 (step_inv st c h)

/-- A freshly constructed provider satisfies the invariant. -/
theorem initState_inv (bo : Option Backend) : Inv (initState bo) :=
  ⟨fun _ => ⟨rfl, rfl⟩, fun c hc => by simp [initState] at hc⟩

/-- Scanning for a device finds nothing when no stored camera wraps that
very device object. -/
theorem scanDevices_eq_none (d : Device) (l : List Camera)
    (h : ∀ c ∈ l, c.device ≠ d) : scanDevices d l = none := by
  induction l with
  | nil => rfl
  | cons c cs ih =>
      simp only [scanDevices]
      rw [if_neg]
      · exact ih (fun x hx => h x (List.mem_cons_of_mem c hx))
      · simp
        exact fun hd => (h c (List.mem_cons_self c cs)) hd.symm

/-- Scanning finds the first camera wrapping the device object when all
earlier entries wrap other objects. -/
theorem scanDevices_append_cons (d : Device) (pre post : List Camera) (cam : Camera)
    (hpre : ∀ c ∈ pre, c.device ≠ d) (hcam : cam.device = d) :
    scanDevices d (pre ++ cam :: post) = some cam := by
  induction pre with
  | nil =>
      simp only [List.nil_append, scanDevices]
      rw [if_pos]
      simp [hcam]
  | cons c cs ih =>
      simp only [List.cons_append, scanDevices]
      rw [if_neg]
      · exact ih (fun x hx => hpre x (List.mem_cons_of_mem c hx))
      · simp
        exact fun hd => (hpre c (List.mem_cons_self c cs)) hd.symm

/-- The enumerate-and-find idiom locates the first satisfying entry at
its index. -/
theorem findPos_append_cons (p : Camera → Bool) (pre post : List Camera) (x : Camera)
    (hpre : ∀ c ∈ pre, p c = false) (hx : p x = true) :
    findPos p (pre ++ x :: post) = some (pre.length, x) := by
  induction pre with
  | nil => simp [findPos, hx]
  | cons c cs ih =>
      simp only [List.cons_append, findPos]
      rw [if_neg (by simp [hpre c (List.mem_cons_self c cs)])]
      simp only [List.append_eq]
      rw [ih (fun y hy => hpre y (List.mem_cons_of_mem c hy))]
      simp [List.length_cons]

/-- Deleting the element between `pre` and `post` by index keeps all
other items in their original relative order. -/
theorem eraseIdx_append_cons (pre post : List Camera) (cam : Camera) :
    (pre ++ cam :: post).eraseIdx pre.length = pre ++ post := by
  induction pre with
  | nil => rfl
  | cons c cs ih => simp [List.eraseIdx, ih]

/-- Counterexample to claim C1 as stated: on a system without the
pipewire plugin, the first `start` fails with `MissingPlugin` yet has
already set the one-way latch, so the second `start` returns success
immediately with no snapshot, no notifications and no watch — it does not
retry the startup. -/
theorem failed_start_latch_counterexample :
    (start (initState none)).result = .error (.MissingPlugin "pipewiredeviceprovider") ∧
    (start (initState none)).state.started = true ∧
    start (start (initState none)).state =
      { state := (start (initState none)).state, events := [], result := .ok () } :=
  ⟨rfl, rfl, rfl⟩

/-- Claim C1 as amended: the latch is set at the top of the first
non-latched `start` call, before the plugin check and the backend start,
so even when that call returns an error (MissingPlugin or a backend
failure) the latch is set by it, and every subsequent `start` returns
success immediately without performing any part of the startup — no
snapshot, no events, no watch registration, no state change. -/
theorem failed_start_sets_latch (st : ProviderState) (f g : Camera → Bool)
    (e : ProviderError)
    (h0 : st.started = false)
    (_he : (start_with_default st f).result = .error e) :
    (start_with_default st f).state.started = true ∧
    start_with_default (start_with_default st f).state g =
      { state := (start_with_default st f).state, events := [], result := .ok () } :=
  ⟨start_with_default_state_started st f h0,
   start_with_default_of_started _ g (start_with_default_state_started st f h0)⟩

/-- Witness for the amended C1, at the MissingPlugin failure. -/
theorem failed_start_sets_latch_witness :
    (initState none).started = false ∧
    (start (initState none)).result = .error (.MissingPlugin "pipewiredeviceprovider") ∧
    (start (initState none)).state.started = true ∧
    start (start (initState none)).state =
      { state := (start (initState none)).state, events := [], result := .ok () } :=
  ⟨rfl, rfl,
    (failed_start_sets_latch (initState none) (fun _ => false) (fun _ => false)
      (.MissingPlugin "pipewiredeviceprovider") rfl rfl).1,
    (failed_start_sets_latch (initState none) (fun _ => false) (fun _ => false)
      (.MissingPlugin "pipewiredeviceprovider") rfl rfl).2⟩

/-- Counterexample to claim C2 as stated: the initial snapshot taken by
`start` filters only by device class — it never consults the caps
descriptor — so an infrared-tagged `"Video/Source"` device present in the
backend snapshot does appear in the cameras list. -/
theorem snapshot_infrared_counterexample :
    ((Camera.new ⟨3, "IRCam", "Video/Source", some 7, some ⟨true⟩⟩).caps.map is_infrared).getD false = true ∧
    (start (initState (some ⟨none, [⟨3, "IRCam", "Video/Source", some 7, some ⟨true⟩⟩], true, 0⟩))).state.cameras =
      [Camera.new ⟨3, "IRCam", "Video/Source", some 7, some ⟨true⟩⟩] :=
  ⟨rfl, by decide⟩

/-- Claim C2 as amended: the device-class filter holds on both paths — in
every state reachable from a freshly constructed provider, every entry of
the cameras list has the `"Video/Source"` class — but the infrared
exclusion holds only on the `DeviceAdded` path: an infrared device is
never added by a `DeviceAdded` message (state and event list untouched),
while an infrared device arriving in the initial snapshot is admitted
(see the counterexample). -/
theorem filtering_class_and_infrared :
    (∀ (bo : Option Backend) (cmds : List Cmd) (c : Camera),
      c ∈ ((run (initState bo) cmds).1).cameras → c.device.deviceClass = "Video/Source") ∧
    (∀ (st : ProviderState) (d : Device),
      (d.caps.map is_infrared).getD false = true →
      handle_message st (.deviceAdded (some d)) = { state := st, events := [] }) := by
  constructor
  · intro bo cmds c hc
    exact (run_inv (initState bo) cmds (initState_inv bo)).2 c hc
  · intro st d hir
    simp only [handle_message]
    by_cases hcls : (d.deviceClass == "Video/Source") = true
    · rw [if_pos hcls]
      by_cases hhas : has_camera st (Camera.new d) = true
      · rw [if_neg (by simp [hhas])]
      · rw [if_pos (by simp [hhas]),
          if_pos (by simpa [Camera.caps, Camera.new] using hir)]
    · rw [if_neg hcls]

/-- Witness for the amended C2: the class filter on a reachable state
with one snapshot camera, and the infrared no-op on `DeviceAdded`. -/
theorem filtering_class_and_infrared_witness :
    (Camera.new ⟨1, "CamA", "Video/Source", some 5, some ⟨false⟩⟩ ∈
      ((run (initState (some ⟨none, [⟨1, "CamA", "Video/Source", some 5, some ⟨false⟩⟩], true, 0⟩)) [.startCmd]).1).cameras) ∧
    (Camera.new ⟨1, "CamA", "Video/Source", some 5, some ⟨false⟩⟩).device.deviceClass = "Video/Source" ∧
    ((Device.caps ⟨3, "IRCam", "Video/Source", some 7, some ⟨true⟩⟩).map is_infrared).getD false = true ∧
    handle_message (initState (some ⟨none, [], true, 0⟩))
        (.deviceAdded (some ⟨3, "IRCam", "Video/Source", some 7, some ⟨true⟩⟩)) =
      { state := initState (some ⟨none, [], true, 0⟩), events := [] } := by
  refine ⟨by decide, ?_, rfl, ?_⟩
  · exact filtering_class_and_infrared.1
      (some ⟨none, [⟨1, "CamA", "Video/Source", some 5, some ⟨false⟩⟩], true, 0⟩) [.startCmd]
      (Camera.new ⟨1, "CamA", "Video/Source", some 5, some ⟨false⟩⟩) (by decide)
  · exact filtering_class_and_infrared.2 (initState (some ⟨none, [], true, 0⟩))
      ⟨3, "IRCam", "Video/Source", some 7, some ⟨true⟩⟩ rfl

/-- Counterexample to claim C3 as stated: the dedupe test in `has_camera`
compares device objects (`c.device() == camera.device()`), not
target-object identities.  Delivering two `DeviceAdded` messages whose
devices are distinct objects with the same target-object yields a
reachable state whose list holds two entries with equal identity. -/
theorem duplicate_identity_counterexample :
    ((run (initState (some ⟨none, [], true, 0⟩))
        [.startCmd,
         .busMsg (.deviceAdded (some ⟨1, "CamA", "Video/Source", some 5, some ⟨false⟩⟩)),
         .busMsg (.deviceAdded (some ⟨2, "CamB", "Video/Source", some 5, some ⟨false⟩⟩))]).1).cameras.length = 2 ∧
    ((run (initState (some ⟨none, [], true, 0⟩))
        [.startCmd,
         .busMsg (.deviceAdded (some ⟨1, "CamA", "Video/Source", some 5, some ⟨false⟩⟩)),
         .busMsg (.deviceAdded (some ⟨2, "CamB", "Video/Source", some 5, some ⟨false⟩⟩))]).1).cameras.map
        Camera.target_object = [some 5, some 5] := by
  exact ⟨by decide, by decide⟩

/-- Claim C3 as amended: deduplication is by backend device-object
equality.  Delivering the same `DeviceAdded` message again is always a
no-op (same state, no notifications); and if a device object is not yet
present, is of the camera class and not infrared, delivering its
`DeviceAdded` twice leaves exactly one entry wrapping that device object
in the list. -/
theorem device_added_dedupe :
    (∀ (st : ProviderState) (d : Device),
      handle_message (handle_message st (.deviceAdded (some d))).state (.deviceAdded (some d)) =
        { state := (handle_message st (.deviceAdded (some d))).state, events := [] }) ∧
    (∀ (st : ProviderState) (d : Device),
      d.deviceClass = "Video/Source" →
      has_camera st (Camera.new d) = false →
      (d.caps.map is_infrared).getD false = false →
      ((handle_message (handle_message st (.deviceAdded (some d))).state
          (.deviceAdded (some d))).state.cameras.countP (fun c => c.device == d)) = 1) := by
  have key : ∀ (st : ProviderState) (d : Device),
      handle_message (handle_message st (.deviceAdded (some d))).state (.deviceAdded (some d)) =
        { state := (handle_message st (.deviceAdded (some d))).state, events := [] } := by
    intro st d
    by_cases hcls : (d.deviceClass == "Video/Source") = true
    · by_cases hhas : has_camera st (Camera.new d) = true
      · have h1 : handle_message st (.deviceAdded (some d)) = { state := st, events := [] } := by
          simp only [handle_message]
          rw [if_pos hcls, if_neg (by simp [hhas])]
        rw [h1]
        simp only [handle_message]
        rw [if_pos hcls, if_neg (by simp [hhas])]
      · by_cases hir : ((Camera.new d).caps.map is_infrared).getD false = true
        · have h1 : handle_message st (.deviceAdded (some d)) = { state := st, events := [] } := by
            simp only [handle_message]
            rw [if_pos hcls, if_pos (by simp [hhas]), if_pos hir]
          rw [h1]
          simp only [handle_message]
          rw [if_pos hcls, if_pos (by simp [hhas]), if_pos hir]
        · have h1 : handle_message st (.deviceAdded (some d)) = append st (Camera.new d) := by
            simp only [handle_message]
            rw [if_pos hcls, if_pos (by simp [hhas]), if_neg hir]
          rw [h1]
          have hhas2 : has_camera (append st (Camera.new d)).state (Camera.new d) = true := by
            simp [has_camera, append, List.any_append]
          simp only [handle_message]
          rw [if_pos hcls, if_neg (by simp [hhas2])]
    · have h1 : handle_message st (.deviceAdded (some d)) = { state := st, events := [] } := by
        simp only [handle_message]
        rw [if_neg hcls]
      rw [h1]
      simp only [handle_message]
      rw [if_neg hcls]
  refine ⟨key, fun st d hcls hhas hir => ?_⟩
  rw [key st d]
  have h1 : handle_message st (.deviceAdded (some d)) = append st (Camera.new d) := by
    simp only [handle_message]
    rw [if_pos (by simp [hcls]), if_pos (by simp [hhas]),
      if_neg (by simpa [Camera.caps, Camera.new] using hir)]
  rw [h1]
  have hzero : st.cameras.countP (fun c => c.device == d) = 0 := by
    rw [List.countP_eq_zero]
    intro c hc
    have hall : ∀ x ∈ st.cameras, ¬ x.device = (Camera.new d).device := by
      simpa [has_camera] using hhas
    simpa [Camera.new] using hall c hc
  simp [append, List.countP_append, hzero, Camera.new]

/-- Witness for the amended C3: delivering `DeviceAdded` twice for one
concrete device object leaves a single matching entry and the second
delivery is a no-op. -/
theorem device_added_dedupe_witness :
    (handle_message (handle_message (run (initState (some ⟨none, [], true, 0⟩)) [.startCmd]).1
        (.deviceAdded (some ⟨1, "CamA", "Video/Source", some 5, some ⟨false⟩⟩))).state
        (.deviceAdded (some ⟨1, "CamA", "Video/Source", some 5, some ⟨false⟩⟩))) =
      { state := (handle_message (run (initState (some ⟨none, [], true, 0⟩)) [.startCmd]).1
          (.deviceAdded (some ⟨1, "CamA", "Video/Source", some 5, some ⟨false⟩⟩))).state
      , events := [] } ∧
    Device.deviceClass ⟨1, "CamA", "Video/Source", some 5, some ⟨false⟩⟩ = "Video/Source" ∧
    has_camera (run (initState (some ⟨none, [], true, 0⟩)) [.startCmd]).1
      (Camera.new ⟨1, "CamA", "Video/Source", some 5, some ⟨false⟩⟩) = false ∧
    ((Device.caps ⟨1, "CamA", "Video/Source", some 5, some ⟨false⟩⟩).map is_infrared).getD false = false ∧
    ((handle_message (handle_message (run (initState (some ⟨none, [], true, 0⟩)) [.startCmd]).1
        (.deviceAdded (some ⟨1, "CamA", "Video/Source", some 5, some ⟨false⟩⟩))).state
        (.deviceAdded (some ⟨1, "CamA", "Video/Source", some 5, some ⟨false⟩⟩))).state.cameras.countP
        (fun c => c.device == ⟨1, "CamA", "Video/Source", some 5, some ⟨false⟩⟩)) = 1 := by
  refine ⟨device_added_dedupe.1 _ _, rfl, by decide, rfl, ?_⟩
  exact device_added_dedupe.2 _ ⟨1, "CamA", "Video/Source", some 5, some ⟨false⟩⟩ rfl (by decide) rfl

/-- Counterexample to claim C4 as stated: with an old backend (no `fd`
property) and the latch clear, `set_fd` does return `OldVersion` with the
stored descriptor unchanged, but the passed descriptor is consumed —
`set_fd` takes the `OwnedFd` by value and the error branch lets it drop
(closing it), so the caller cannot retain ownership of it. -/
theorem set_fd_old_version_consumes :
    set_fd (initState (some ⟨none, [], false, 0⟩)) 7 =
      { state := initState (some ⟨none, [], false, 0⟩)
      , result := .err .OldVersion, fdFate := .dropped } := rfl

/-- Claim C4 as amended: before `start`, on a backend without the
descriptor-typed `fd` property, `set_fd` returns `OldVersion`, leaves the
provider state (stored descriptor included) unchanged, and does not store
the passed descriptor — but the descriptor is consumed (dropped when the
call returns) rather than retained by the caller. -/
theorem set_fd_old_version (st : ProviderState) (fd : Nat) (b : Backend)
    (h0 : st.started = false) (h1 : st.inner = some b) (h2 : b.hasFdProperty = false) :
    set_fd st fd = { state := st, result := .err .OldVersion, fdFate := .dropped } := by
  simp [set_fd, h0, h1, h2]

/-- Witness for the amended C4. -/
theorem set_fd_old_version_witness :
    (initState (some ⟨none, [], false, 0⟩)).started = false ∧
    (initState (some ⟨none, [], false, 0⟩)).inner = some ⟨none, [], false, 0⟩ ∧
    Backend.hasFdProperty ⟨none, [], false, 0⟩ = false ∧
    set_fd (initState (some ⟨none, [], false, 0⟩)) 9 =
      { state := initState (some ⟨none, [], false, 0⟩)
      , result := .err .OldVersion, fdFate := .dropped } :=
  ⟨rfl, rfl, rfl,
    set_fd_old_version (initState (some ⟨none, [], false, 0⟩)) 9 ⟨none, [], false, 0⟩ rfl rfl rfl⟩

/-- Claim C5: calling `set_fd` once the one-way latch is set returns
`ProvidedStarted` and leaves the provider state (stored descriptor
included) exactly as it was; the early return happens before any backend
access. -/
theorem set_fd_after_started (st : ProviderState) (fd : Nat)
    (h : st.started = true) :
    set_fd st fd = { state := st, result := .err .ProvidedStarted, fdFate := .dropped } := by
  simp [set_fd, h]

/-- Witness for C5: after a successful `start` the latch is set and
`set_fd` rejects the descriptor with `ProvidedStarted`, state
untouched. -/
theorem set_fd_after_started_witness :
    (start (initState (some ⟨none, [], true, 0⟩))).state.started = true ∧
    set_fd (start (initState (some ⟨none, [], true, 0⟩))).state 7 =
      { state := (start (initState (some ⟨none, [], true, 0⟩))).state
      , result := .err .ProvidedStarted, fdFate := .dropped } :=
  ⟨rfl, set_fd_after_started (start (initState (some ⟨none, [], true, 0⟩))).state 7 rfl⟩

/-- Claim C6: when the first `start` succeeds, a second call in sequence
also returns success, while performing nothing: no snapshot, no
notification, no second bus-watch registration — its output state is
exactly the state left by the first call and its event list is empty. -/
theorem start_twice_idempotent (st : ProviderState) (b : Backend)
    (f g : Camera → Bool)
    (h0 : st.started = false) (h1 : st.inner = some b) (h2 : b.startErr = none) :
    (start_with_default st f).result = .ok () ∧
    start_with_default (start_with_default st f).state g =
      { state := (start_with_default st f).state, events := [], result := .ok () } := by
  refine ⟨?_, start_with_default_of_started _ g (start_with_default_state_started st f h0)⟩
  rw [start_with_default_ok st f b h0 h1 h2]

/-- Witness for C6 at a concrete provider with a one-device snapshot. -/
theorem start_twice_idempotent_witness :
    (initState (some ⟨none, [⟨1, "CamA", "Video/Source", some 5, some ⟨false⟩⟩], true, 0⟩)).started = false ∧
    (start (initState (some ⟨none, [⟨1, "CamA", "Video/Source", some 5, some ⟨false⟩⟩], true, 0⟩))).result = .ok () ∧
    start (start (initState (some ⟨none, [⟨1, "CamA", "Video/Source", some 5, some ⟨false⟩⟩], true, 0⟩))).state =
      { state := (start (initState (some ⟨none, [⟨1, "CamA", "Video/Source", some 5, some ⟨false⟩⟩], true, 0⟩))).state
      , events := [], result := .ok () } := by
  refine ⟨rfl, ?_, ?_⟩
  · exact (start_twice_idempotent _ ⟨none, [⟨1, "CamA", "Video/Source", some 5, some ⟨false⟩⟩], true, 0⟩
      (fun _ => false) (fun _ => false) rfl rfl rfl).1
  · exact (start_twice_idempotent _ ⟨none, [⟨1, "CamA", "Video/Source", some 5, some ⟨false⟩⟩], true, 0⟩
      (fun _ => false) (fun _ => false) rfl rfl rfl).2

/-- Claim C7, in three parts: (i) in every state reachable from
construction the camera list is empty until the latch is set, so when the
startup snapshot runs the old length is 0; (ii) on backend start success,
`start` installs the whole filtered snapshot as the new list in one step
and emits exactly one list-changed notification — a full-range
replacement `(0, old length, new length)` — followed only by the
`notify::started` property notification; (iii) in a trace the events of
the `start` call precede every event of later deliveries, so the
snapshot-replace notification precedes any incremental add/remove
notification. -/
theorem start_snapshot_replace :
    (∀ (bo : Option Backend) (cmds : List Cmd),
      ((run (initState bo) cmds).1).started = false → ((run (initState bo) cmds).1).cameras = []) ∧
    (∀ (st : ProviderState) (b : Backend) (f : Camera → Bool),
      st.started = false → st.cameras = [] → st.inner = some b → b.startErr = none →
      (start_with_default st f).result = .ok () ∧
      (start_with_default st f).state.cameras = snapshotCameras b ∧
      (start_with_default st f).events =
        [.itemsChanged 0 st.cameras.length (snapshotCameras b).length, .notifyStarted]) ∧
    (∀ (st : ProviderState) (f : Camera → Bool) (cs : List Cmd),
      run st (.startDefault f :: cs) =
        ((run (start_with_default st f).state cs).1,
         (start_with_default st f).events ++ (run (start_with_default st f).state cs).2)) := by
  refine ⟨?_, ?_, ?_⟩
  · intro bo cmds hns
    exact ((run_inv (initState bo) cmds (initState_inv bo)).1 hns).1
  · intro st b f h0 hempty h1 h2
    rw [start_with_default_ok st f b h0 h1 h2]
    refine ⟨rfl, rfl, ?_⟩
    rw [hempty]
    rfl
  · intro st f cs
    rfl

/-- Witness for C7: a backend snapshot holding one camera device and one
non-camera device; `start` installs the filtered one-entry list, emits
`(0, 0, 1)` then `notify::started`, and a trace starting with the call
puts those events first. -/
theorem start_snapshot_replace_witness :
    (((run (initState (some ⟨none, [], true, 0⟩)) []).1).started = false →
      ((run (initState (some ⟨none, [], true, 0⟩)) []).1).cameras = []) ∧
    ((start_with_default (initState (some ⟨none, [⟨1, "CamA", "Video/Source", some 5, some ⟨false⟩⟩, ⟨9, "Mic", "Audio/Source", some 8, none⟩], true, 0⟩)) (fun _ => false)).result = .ok () ∧
     (start_with_default (initState (some ⟨none, [⟨1, "CamA", "Video/Source", some 5, some ⟨false⟩⟩, ⟨9, "Mic", "Audio/Source", some 8, none⟩], true, 0⟩)) (fun _ => false)).state.cameras =
       snapshotCameras ⟨none, [⟨1, "CamA", "Video/Source", some 5, some ⟨false⟩⟩, ⟨9, "Mic", "Audio/Source", some 8, none⟩], true, 0⟩ ∧
     (start_with_default (initState (some ⟨none, [⟨1, "CamA", "Video/Source", some 5, some ⟨false⟩⟩, ⟨9, "Mic", "Audio/Source", some 8, none⟩], true, 0⟩)) (fun _ => false)).events =
       [.itemsChanged 0 (initState (some ⟨none, [⟨1, "CamA", "Video/Source", some 5, some ⟨false⟩⟩, ⟨9, "Mic", "Audio/Source", some 8, none⟩], true, 0⟩)).cameras.length
          (snapshotCameras ⟨none, [⟨1, "CamA", "Video/Source", some 5, some ⟨false⟩⟩, ⟨9, "Mic", "Audio/Source", some 8, none⟩], true, 0⟩).length,
        .notifyStarted]) ∧
    run (initState (some ⟨none, [], true, 0⟩)) [.startDefault (fun _ => false)] =
      ((run (start_with_default (initState (some ⟨none, [], true, 0⟩)) (fun _ => false)).state []).1,
       (start_with_default (initState (some ⟨none, [], true, 0⟩)) (fun _ => false)).events ++
         (run (start_with_default (initState (some ⟨none, [], true, 0⟩)) (fun _ => false)).state []).2) := by
  refine ⟨start_snapshot_replace.1 (some ⟨none, [], true, 0⟩) [], ?_, ?_⟩
  · exact start_snapshot_replace.2.1
      (initState (some ⟨none, [⟨1, "CamA", "Video/Source", some 5, some ⟨false⟩⟩, ⟨9, "Mic", "Audio/Source", some 8, none⟩], true, 0⟩))
      ⟨none, [⟨1, "CamA", "Video/Source", some 5, some ⟨false⟩⟩, ⟨9, "Mic", "Audio/Source", some 8, none⟩], true, 0⟩
      (fun _ => false) rfl rfl rfl rfl
  · exact start_snapshot_replace.2.2 (initState (some ⟨none, [], true, 0⟩)) (fun _ => false) []

/-- Counterexample to claim C8 as stated: the `DeviceRemoved` scan
compares backend device objects (`device == nth_device.device()`, pointer
equality), not identities.  Here the stored camera at position 0 has the
message device's identity (target-object 5) but is a different device
object, so nothing is removed and no `(0, 1, 0)` notification is
emitted. -/
theorem device_removed_identity_counterexample :
    ((run (initState (some ⟨none, [], true, 0⟩))
        [.startCmd, .busMsg (.deviceAdded (some ⟨1, "CamA", "Video/Source", some 5, some ⟨false⟩⟩))]).1).cameras.map
        Camera.target_object = [some 5] ∧
    Device.targetObject ⟨2, "CamB", "Video/Source", some 5, some ⟨false⟩⟩ = some 5 ∧
    (handle_message ((run (initState (some ⟨none, [], true, 0⟩))
        [.startCmd, .busMsg (.deviceAdded (some ⟨1, "CamA", "Video/Source", some 5, some ⟨false⟩⟩))]).1)
      (.deviceRemoved (some ⟨2, "CamB", "Video/Source", some 5, some ⟨false⟩⟩))).state.cameras.map
        Camera.target_object = [some 5] ∧
    (handle_message ((run (initState (some ⟨none, [], true, 0⟩))
        [.startCmd, .busMsg (.deviceAdded (some ⟨1, "CamA", "Video/Source", some 5, some ⟨false⟩⟩))]).1)
      (.deviceRemoved (some ⟨2, "CamB", "Video/Source", some 5, some ⟨false⟩⟩))).events = [] := by
  refine ⟨by decide, rfl, by decide, by decide⟩

/-- Claim C8 as amended: for a list `pre ++ cam :: post` (so `cam` is at
position `p = pre.length` and the list has length `L = (pre ++ post).length
+ 1`), handling `DeviceRemoved` for the very device object stored in
`cam` — pointer-equal, not merely identity-equal — when no earlier entry
shares `cam`'s target-object, removes exactly that entry, emits
`items_changed (p, 1, 0)` followed by `camera-removed` carrying the
removed Camera, and the resulting list is `pre ++ post`: length `L - 1`,
all other items in their original relative order. -/
theorem device_removed_found (st : ProviderState) (pre post : List Camera)
    (cam : Camera) (d : Device)
    (hcam : st.cameras = pre ++ cam :: post)
    (hdev : cam.device = d)
    (hclass : d.deviceClass = "Video/Source")
    (hpre : ∀ c ∈ pre, c.device.targetObject ≠ d.targetObject) :
    handle_message st (.deviceRemoved (some d)) =
      { state := { st with cameras := pre ++ post }
      , events := [.itemsChanged pre.length 1 0, .cameraRemoved cam] } ∧
    (pre ++ post).length + 1 = st.cameras.length := by
  constructor
  · simp only [handle_message]
    rw [if_pos (by simp [hclass])]
    rw [hcam]
    rw [scanDevices_append_cons d pre post cam
      (fun c hc hd => hpre c hc (by rw [hd])) hdev]
    simp only [remove, hcam]
    rw [findPos_append_cons _ pre post cam
      (fun c hc => by
        simp [Camera.target_object]
        intro heq
        exact hpre c hc (by rw [hdev] at heq; exact heq))
      (by simp)]
    dsimp only
    rw [eraseIdx_append_cons]
  · rw [hcam]; simp; omega

/-- Witness for the amended C8: a two-camera list; removing the second
stored device object emits `(1, 1, 0)` then `camera-removed`, leaving the
first camera. -/
theorem device_removed_found_witness :
    ((run (initState (some ⟨none, [⟨1, "CamA", "Video/Source", some 4, some ⟨false⟩⟩], true, 0⟩))
        [.startCmd, .busMsg (.deviceAdded (some ⟨2, "CamB", "Video/Source", some 5, some ⟨false⟩⟩))]).1).cameras =
      [Camera.new ⟨1, "CamA", "Video/Source", some 4, some ⟨false⟩⟩] ++
        Camera.new ⟨2, "CamB", "Video/Source", some 5, some ⟨false⟩⟩ :: [] ∧
    handle_message ((run (initState (some ⟨none, [⟨1, "CamA", "Video/Source", some 4, some ⟨false⟩⟩], true, 0⟩))
        [.startCmd, .busMsg (.deviceAdded (some ⟨2, "CamB", "Video/Source", some 5, some ⟨false⟩⟩))]).1)
        (.deviceRemoved (some ⟨2, "CamB", "Video/Source", some 5, some ⟨false⟩⟩)) =
      { state :=
          { (run (initState (some ⟨none, [⟨1, "CamA", "Video/Source", some 4, some ⟨false⟩⟩], true, 0⟩))
              [.startCmd, .busMsg (.deviceAdded (some ⟨2, "CamB", "Video/Source", some 5, some ⟨false⟩⟩))]).1 with
            cameras := [Camera.new ⟨1, "CamA", "Video/Source", some 4, some ⟨false⟩⟩] ++ [] }
      , events := [.itemsChanged 1 1 0,
          .cameraRemoved (Camera.new ⟨2, "CamB", "Video/Source", some 5, some ⟨false⟩⟩)] } := by
  refine ⟨by decide, ?_⟩
  exact (device_removed_found _
    [Camera.new ⟨1, "CamA", "Video/Source", some 4, some ⟨false⟩⟩] []
    (Camera.new ⟨2, "CamB", "Video/Source", some 5, some ⟨false⟩⟩)
    ⟨2, "CamB", "Video/Source", some 5, some ⟨false⟩⟩
    (by decide) rfl rfl (by decide)).1

/-- Claim C9: a `DeviceRemoved` message whose device class is the camera
class but whose identity (target-object) matches no stored entry leaves
the list unchanged and emits no notification; `handle_message` is total
and returns to the watch normally, so no error reaches any caller. -/
theorem device_removed_unknown_noop (st : ProviderState) (d : Device)
    (hclass : d.deviceClass = "Video/Source")
    (habs : ∀ c ∈ st.cameras, c.device.targetObject ≠ d.targetObject) :
    handle_message st (.deviceRemoved (some d)) = { state := st, events := [] } := by
  simp only [handle_message]
  rw [if_pos (by simp [hclass])]
  rw [scanDevices_eq_none d st.cameras
    (fun c hc hd => habs c hc (by rw [hd]))]

/-- Witness for C9: removing a device whose target-object is absent from
a one-camera list changes nothing. -/
theorem device_removed_unknown_noop_witness :
    Device.deviceClass ⟨2, "CamB", "Video/Source", some 6, some ⟨false⟩⟩ = "Video/Source" ∧
    (∀ c ∈ ((run (initState (some ⟨none, [⟨1, "CamA", "Video/Source", some 5, some ⟨false⟩⟩], true, 0⟩)) [.startCmd]).1).cameras,
      c.device.targetObject ≠ Device.targetObject ⟨2, "CamB", "Video/Source", some 6, some ⟨false⟩⟩) ∧
    handle_message ((run (initState (some ⟨none, [⟨1, "CamA", "Video/Source", some 5, some ⟨false⟩⟩], true, 0⟩)) [.startCmd]).1)
        (.deviceRemoved (some ⟨2, "CamB", "Video/Source", some 6, some ⟨false⟩⟩)) =
      { state := (run (initState (some ⟨none, [⟨1, "CamA", "Video/Source", some 5, some ⟨false⟩⟩], true, 0⟩)) [.startCmd]).1
      , events := [] } := by
  refine ⟨rfl, by decide, ?_⟩
  exact device_removed_unknown_noop _ _ rfl (by decide)

/-- Claim C10: calling `set_fd` before `start` when the backend handle
was never obtained (the MissingPlugin situation) panics on
`inner.get().unwrap()` instead of returning a `PipewireError`. -/
theorem set_fd_missing_backend_panics (st : ProviderState) (fd : Nat)
    (h0 : st.started = false) (h1 : st.inner = none) :
    set_fd st fd = { state := st, result := .panicUnwrap, fdFate := .dropped } := by
  simp [set_fd, h0, h1]

/-- Witness for C10: a provider constructed without the pipewire plugin
panics in `set_fd`. -/
theorem set_fd_missing_backend_panics_witness :
    (initState none).started = false ∧ (initState none).inner = none ∧
    set_fd (initState none) 7 =
      { state := initState none, result := .panicUnwrap, fdFate := .dropped } :=
  ⟨rfl, rfl, set_fd_missing_backend_panics (initState none) 7 rfl rfl⟩

end Aperture
